import Mathlib

/-!
Shallow embedding of the Customer-Order Service (`src/main.py`).

The service is a set of HTTP request handlers over one MongoDB collection
`customers`.  Each handler is embedded as a pure function from the current
collection state (`Db`) and the request data to a result together with the
post-state collection; raising an exception in Python leaves the collection
unchanged, so an error outcome is paired with the unmodified state.
-/

/-- Pydantic model `Order` (src/main.py lines 41-44): `category : str`,
`quantity : int`, `price : float`.  The service only stores, copies and
compares prices — it never computes with them — so `price` is embedded as a
rational number. -/
structure Order where
  category : String
  quantity : Int
  price : Rat
deriving DecidableEq, Repr

/-- A customer document as persisted in the `customers` collection: the
fields written by `add_customer` (src/main.py lines 70-76).  The `orders`
field is part of the document type, hence always present. -/
structure CustomerDoc where
  name : String
  email : String
  phone : String
  address : String
  orders : List Order
deriving DecidableEq, Repr

/-- Pydantic request model `Customer` (src/main.py lines 46-51): the four
text fields plus `orders : Optional[List[Order]] = []`.  `none` embeds an
explicit JSON `null`; `some os` embeds a supplied list (the default for an
omitted field is `some []`). -/
structure Customer where
  name : String
  email : String
  phone : String
  address : String
  orders : Option (List Order)
deriving DecidableEq, Repr

namespace ObjectId

/-- Hexadecimal digit test, used by the ObjectId validity check. -/
def isHexDigit (c : Char) : Bool :=
  c.isDigit || (97 ≤ c.toNat && c.toNat ≤ 102) || (65 ≤ c.toNat && c.toNat ≤ 70)

/-- Embeds `bson.ObjectId.is_valid` on a string argument (external `bson`
library used at src/main.py line 107): a string is a valid ObjectId exactly
when it consists of 24 hexadecimal characters.  Passing an invalid string to
the `ObjectId(...)` constructor raises `bson.errors.InvalidId`. -/
def isValid (s : String) : Bool :=
  s.length == 24 && s.toList.all isHexDigit

end ObjectId

/-- Outcome of a handler raising in Python.  `httpException c d` embeds
`fastapi.HTTPException(status_code := c, detail := d)`, which the framework
turns into a response with status `c`.  `invalidIdError s` embeds
`bson.errors.InvalidId` raised by `ObjectId(s)` on a malformed string, and
`indexError` embeds Python's `IndexError`; both are uncaught by the
handlers. -/
inductive PyError where
  | httpException (statusCode : Nat) (detail : String)
  | invalidIdError (s : String)
  | indexError
deriving DecidableEq, Repr

/-- HTTP status of the response the client actually receives: the status of
an `HTTPException`, and 500 (internal server error, FastAPI's behaviour for
an uncaught exception) for the other two. -/
def PyError.responseStatus : PyError → Nat
  | .httpException c _ => c
  | .invalidIdError _ => 500
  | .indexError => 500

/-- An HTTP status code in the client-error class (4xx). -/
def isClientError (statusCode : Nat) : Bool :=
  400 ≤ statusCode && statusCode < 500

/-- The `customers` collection: an association list from document key
(ObjectId rendered as text) to document, in insertion order. -/
abbrev Db := List (String × CustomerDoc)

namespace Db

/-- Embeds `customers_collection.find_one({"_id": ObjectId(id)})`: the first
document whose key matches, if any. -/
def find_one : Db → String → Option CustomerDoc
  | [], _ => none
  | (k, v) :: rest, idStr => if k = idStr then some v else find_one rest idStr

/-- Embeds `customers_collection.update_one({"_id": ObjectId(id)},
{"$set": {"orders": os}})`: replaces the `orders` field of the first
matching document. -/
def update_one : Db → String → List Order → Db
  | [], _, _ => []
  | (k, v) :: rest, idStr, os =>
    if k = idStr then (k, { v with orders := os }) :: rest
    else (k, v) :: update_one rest idStr os

/-- Embeds `customers_collection.insert_one(doc)`; MongoDB generates the
fresh key, which the embedding receives as `newId`. -/
def insert_one (db : Db) (newId : String) (doc : CustomerDoc) : Db :=
  db ++ [(newId, doc)]

end Db

/-- Python list indexing with an `int` index over a list of length `len`:
a negative index counts from the end (`len + i`); an index that still falls
outside the list raises `IndexError` (embedded as `none`). -/
def pyIndex (len : Nat) (i : Int) : Option Nat :=
  let j : Int := if i < 0 then i + len else i
  if 0 ≤ j ∧ j < (len : Int) then some j.toNat else none

/-- Response body shared by the book, edit and patch handlers:
`{"message": ..., "order": ...}`. -/
structure OrderReply where
  message : String
  order : Order
deriving DecidableEq, Repr

/-- `add_customer` (src/main.py lines 68-79), POST `/customers/`.  The
stored orders are `customer.orders if customer.orders else []`; both `None`
and the empty list are falsy in Python, so both become `[]`.  Returns the
post-state collection and the created document (the route also echoes the
generated id `newId`). -/
def add_customer (db : Db) (newId : String) (customer : Customer) : Db × CustomerDoc :=
  let new_customer : CustomerDoc :=
    { name := customer.name
      email := customer.email
      phone := customer.phone
      address := customer.address
      orders :=
        match customer.orders with
        | none => []
        | some [] => []
        | some os => os }
  (db.insert_one newId new_customer, new_customer)

/-- `book_order` (src/main.py lines 82-96), POST
`/customers/{customer_id}/order`.  No `is_valid` guard: a malformed id makes
`ObjectId(customer_id)` raise `InvalidId`.  Otherwise: 404 if the customer is
absent; else append the order and write the whole list back. -/
def book_order (db : Db) (customer_id : String) (order : Order) :
    Except PyError OrderReply × Db :=
  if ObjectId.isValid customer_id then
    match db.find_one customer_id with
    | none => (.error (.httpException 404 "Customer not found"), db)
    | some customer =>
      let newOrders := customer.orders ++ [order]
      (.ok ⟨"Order booked successfully", order⟩, db.update_one customer_id newOrders)
  else
    (.error (.invalidIdError customer_id), db)

/-- `get_customer_by_id` (src/main.py lines 105-115), GET
`/customers/{customer_id}`.  The only handler with the `ObjectId.is_valid`
guard: 400 before any lookup on a malformed id, then 404 if absent. -/
def get_customer_by_id (db : Db) (customer_id : String) :
    Except PyError CustomerDoc × Db :=
  if ObjectId.isValid customer_id then
    match db.find_one customer_id with
    | none => (.error (.httpException 404 "Customer not found"), db)
    | some customer => (.ok customer, db)
  else
    (.error (.httpException 400 "Invalid customer ID format"), db)

/-- `edit_order` (src/main.py lines 118-135), PUT
`/customers/{customer_id}/order/{order_index}`.  After the 404 checks the
bounds test is only `order_index >= len(orders)`; the subsequent Python
assignment `orders[order_index] = ...` resolves the (possibly negative)
index itself. -/
def edit_order (db : Db) (customer_id : String) (order_index : Int) (order : Order) :
    Except PyError OrderReply × Db :=
  if ObjectId.isValid customer_id then
    match db.find_one customer_id with
    | none => (.error (.httpException 404 "Customer not found"), db)
    | some customer =>
      if (customer.orders.length : Int) ≤ order_index then
        (.error (.httpException 404 "Order not found"), db)
      else
        match pyIndex customer.orders.length order_index with
        | none => (.error .indexError, db)
        | some j =>
          let newOrders := customer.orders.set j order
          (.ok ⟨"Order updated successfully", order⟩, db.update_one customer_id newOrders)
  else
    (.error (.invalidIdError customer_id), db)

/-- `delete_order` (src/main.py lines 138-155), DELETE
`/customers/{customer_id}/order/{order_index}`: same guards as `edit_order`,
then `del orders[order_index]` and write-back. -/
def delete_order (db : Db) (customer_id : String) (order_index : Int) :
    Except PyError String × Db :=
  if ObjectId.isValid customer_id then
    match db.find_one customer_id with
    | none => (.error (.httpException 404 "Customer not found"), db)
    | some customer =>
      if (customer.orders.length : Int) ≤ order_index then
        (.error (.httpException 404 "Order not found"), db)
      else
        match pyIndex customer.orders.length order_index with
        | none => (.error .indexError, db)
        | some j =>
          let newOrders := customer.orders.eraseIdx j
          (.ok "Order deleted successfully", db.update_one customer_id newOrders)
  else
    (.error (.invalidIdError customer_id), db)

/-- `update_order_amount` (src/main.py lines 158-176), PATCH
`/customers/{customer_id}/order/{order_index}`: same guards, then mutates
`quantity` and `price` of the order at the index in place and writes the
list back; the response carries the order re-read after mutation. -/
def update_order_amount (db : Db) (customer_id : String) (order_index : Int)
    (new_price : Rat) (new_quantity : Int) :
    Except PyError OrderReply × Db :=
  if ObjectId.isValid customer_id then
    match db.find_one customer_id with
    | none => (.error (.httpException 404 "Customer not found"), db)
    | some customer =>
      if (customer.orders.length : Int) ≤ order_index then
        (.error (.httpException 404 "Order not found"), db)
      else
        match pyIndex customer.orders.length order_index with
        | none => (.error .indexError, db)
        | some j =>
          match customer.orders[j]? with
          | none => (.error .indexError, db)
          | some old =>
            let updated : Order := { old with quantity := new_quantity, price := new_price }
            let newOrders := customer.orders.set j updated
            (.ok ⟨"Order updated successfully", updated⟩,
             db.update_one customer_id newOrders)
  else
    (.error (.invalidIdError customer_id), db)

/-! Helper lemmas about the collection model. -/

theorem Db.find_one_update_one_self (db : Db) (idStr : String) (os : List Order) :
    (db.update_one idStr os).find_one idStr =
      (db.find_one idStr).map fun c => { c with orders := os } := by
  induction db with
  | nil => rfl
  | cons hd tl ih =>
    obtain ⟨k, v⟩ := hd
    by_cases h : k = idStr <;> simp [Db.update_one, Db.find_one, h, ih]

theorem Db.find_one_insert_one_fresh (db : Db) (newId : String) (doc : CustomerDoc)
    (h : db.find_one newId = none) :
    (db.insert_one newId doc).find_one newId = some doc := by
  induction db with
  | nil => simp [Db.insert_one, Db.find_one]
  | cons hd tl ih =>
    obtain ⟨k, v⟩ := hd
    by_cases hk : k = newId
    · simp [Db.find_one, hk] at h
    · simp only [Db.insert_one, Db.find_one, hk, if_false, List.cons_append] at h ⊢
      exact ih h

theorem List.getElem?_eraseIdx_of_lt' {α : Type} (l : List α) (i k : Nat)
    (hi : i < l.length) (h : k < i) :
    (l.eraseIdx i)[k]? = l[k]? := by
  have ht : (l.take i).length = i := by simp [List.length_take]; omega
  rw [List.eraseIdx_eq_take_drop_succ, List.getElem?_append, ht, if_pos h]
  simp [List.getElem?_take, h]

theorem List.getElem?_eraseIdx_of_ge' {α : Type} (l : List α) (i k : Nat)
    (hi : i < l.length) (h : i ≤ k) :
    (l.eraseIdx i)[k]? = l[k + 1]? := by
  have ht : (l.take i).length = i := by simp [List.length_take]; omega
  rw [List.eraseIdx_eq_take_drop_succ, List.getElem?_append, ht,
    if_neg (by omega), List.getElem?_drop]
  congr 1
  omega

deriving instance DecidableEq for Except

/-! Claim theorems. -/

/-- Claim C6: for `get_customer_by_id`, a syntactically invalid identifier
yields a bad-request (400) failure before any lookup (for every collection
state, even one containing that key), a well-formed identifier matching no
stored customer yields a not-found (404) failure, and the two failures are
distinct. -/
theorem get_customer_by_id_error_split (db : Db) (customer_id : String) :
    (ObjectId.isValid customer_id = false →
      get_customer_by_id db customer_id =
        (.error (.httpException 400 "Invalid customer ID format"), db)) ∧
    (ObjectId.isValid customer_id = true → db.find_one customer_id = none →
      get_customer_by_id db customer_id =
        (.error (.httpException 404 "Customer not found"), db)) ∧
    PyError.httpException 400 "Invalid customer ID format" ≠
      PyError.httpException 404 "Customer not found" := by
  refine ⟨fun hv => ?_, fun hv hf => ?_, by decide⟩
  · simp [get_customer_by_id, hv]
  · simp [get_customer_by_id, hv, hf]

theorem get_customer_by_id_error_split_witness :
    get_customer_by_id [] "zzz" =
      (.error (.httpException 400 "Invalid customer ID format"), []) ∧
    get_customer_by_id [] "aaaaaaaaaaaaaaaaaaaaaaaa" =
      (.error (.httpException 404 "Customer not found"), []) :=
  ⟨(get_customer_by_id_error_split [] "zzz").1 (by decide),
   (get_customer_by_id_error_split [] "aaaaaaaaaaaaaaaaaaaaaaaa").2.1 (by decide) rfl⟩

/-- Claim C8: booking an order for a well-formed identifier that matches no
stored customer fails with the 404 not-found error and leaves the collection
exactly as it was (the returned state is the input state: nothing inserted
or modified). -/
theorem book_order_absent_customer (db : Db) (customer_id : String) (o : Order)
    (hv : ObjectId.isValid customer_id = true)
    (hf : db.find_one customer_id = none) :
    book_order db customer_id o =
      (.error (.httpException 404 "Customer not found"), db) := by
  simp [book_order, hv, hf]

theorem book_order_absent_customer_witness :
    book_order [] "aaaaaaaaaaaaaaaaaaaaaaaa" ⟨"bricks", 100, 5⟩ =
      (.error (.httpException 404 "Customer not found"), []) :=
  book_order_absent_customer [] "aaaaaaaaaaaaaaaaaaaaaaaa" ⟨"bricks", 100, 5⟩
    (by decide) rfl

/-- Claim C7: for an existing customer, `edit_order`, `delete_order` and
`update_order_amount` all fail with the 404 not-found error whenever the
supplied index is at least the current length of the order sequence, and the
returned collection state is the unchanged input state (no write happens). -/
theorem index_at_least_length_not_found (db : Db) (customer_id : String)
    (c : CustomerDoc) (i : Int) (o : Order) (np : Rat) (nq : Int)
    (hv : ObjectId.isValid customer_id = true)
    (hf : db.find_one customer_id = some c)
    (hi : (c.orders.length : Int) ≤ i) :
    edit_order db customer_id i o =
      (.error (.httpException 404 "Order not found"), db) ∧
    delete_order db customer_id i =
      (.error (.httpException 404 "Order not found"), db) ∧
    update_order_amount db customer_id i np nq =
      (.error (.httpException 404 "Order not found"), db) := by
  refine ⟨?_, ?_, ?_⟩ <;> simp [edit_order, delete_order, update_order_amount, hv, hf, hi]

theorem index_at_least_length_not_found_witness :
    edit_order [("aaaaaaaaaaaaaaaaaaaaaaaa", ⟨"Alice", "a@x.com", "555", "1 Main St", [⟨"sand", 2, 3⟩]⟩)]
        "aaaaaaaaaaaaaaaaaaaaaaaa" 1 ⟨"bricks", 100, 5⟩ =
      (.error (.httpException 404 "Order not found"),
       [("aaaaaaaaaaaaaaaaaaaaaaaa", ⟨"Alice", "a@x.com", "555", "1 Main St", [⟨"sand", 2, 3⟩]⟩)]) ∧
    delete_order [("aaaaaaaaaaaaaaaaaaaaaaaa", ⟨"Alice", "a@x.com", "555", "1 Main St", [⟨"sand", 2, 3⟩]⟩)]
        "aaaaaaaaaaaaaaaaaaaaaaaa" 1 =
      (.error (.httpException 404 "Order not found"),
       [("aaaaaaaaaaaaaaaaaaaaaaaa", ⟨"Alice", "a@x.com", "555", "1 Main St", [⟨"sand", 2, 3⟩]⟩)]) ∧
    update_order_amount [("aaaaaaaaaaaaaaaaaaaaaaaa", ⟨"Alice", "a@x.com", "555", "1 Main St", [⟨"sand", 2, 3⟩]⟩)]
        "aaaaaaaaaaaaaaaaaaaaaaaa" 1 7 9 =
      (.error (.httpException 404 "Order not found"),
       [("aaaaaaaaaaaaaaaaaaaaaaaa", ⟨"Alice", "a@x.com", "555", "1 Main St", [⟨"sand", 2, 3⟩]⟩)]) :=
  index_at_least_length_not_found _ _ _ _ _ _ _ (by decide) rfl (by decide)

/-- Claim C5 counterexample: `book_order` performs no identifier-validity
check — on a malformed identifier it surfaces the uncaught `InvalidId`
exception from the `ObjectId(...)` constructor, whose response status is
500, which is not in the client-error class.  So it is not the case that
every identifier-taking operation surfaces a malformed identifier as a
client-error response via a prior check. -/
theorem book_order_invalid_id_not_client_error :
    (book_order [] "not-a-valid-object-id" ⟨"bricks", 100, 5⟩).1 =
      .error (.invalidIdError "not-a-valid-object-id") ∧
    (PyError.invalidIdError "not-a-valid-object-id").responseStatus = 500 ∧
    isClientError (PyError.invalidIdError "not-a-valid-object-id").responseStatus = false := by
  refine ⟨?_, rfl, rfl⟩
  rfl

/-- Claim C5 (amended): only `get_customer_by_id` checks identifier validity
before the lookup and surfaces a malformed identifier as a distinct 400
client error; `book_order`, `edit_order`, `delete_order` and
`update_order_amount` pass the raw string to the `ObjectId(...)`
constructor, so a malformed identifier surfaces as an uncaught `InvalidId`
exception — a 500 server error, not a client-error response — with the
collection left unchanged in every case. -/
theorem invalid_id_only_get_has_guard (db : Db) (customer_id : String)
    (o : Order) (i : Int) (np : Rat) (nq : Int)
    (hv : ObjectId.isValid customer_id = false) :
    get_customer_by_id db customer_id =
      (.error (.httpException 400 "Invalid customer ID format"), db) ∧
    isClientError (PyError.httpException 400 "Invalid customer ID format").responseStatus = true ∧
    book_order db customer_id o = (.error (.invalidIdError customer_id), db) ∧
    edit_order db customer_id i o = (.error (.invalidIdError customer_id), db) ∧
    delete_order db customer_id i = (.error (.invalidIdError customer_id), db) ∧
    update_order_amount db customer_id i np nq =
      (.error (.invalidIdError customer_id), db) ∧
    (PyError.invalidIdError customer_id).responseStatus = 500 ∧
    isClientError (PyError.invalidIdError customer_id).responseStatus = false := by
  refine ⟨?_, rfl, ?_, ?_, ?_, ?_, rfl, rfl⟩ <;>
    simp [get_customer_by_id, book_order, edit_order, delete_order,
      update_order_amount, hv]

theorem invalid_id_only_get_has_guard_witness :
    get_customer_by_id [] "zzz" =
      (.error (.httpException 400 "Invalid customer ID format"), []) ∧
    isClientError (PyError.httpException 400 "Invalid customer ID format").responseStatus = true ∧
    book_order [] "zzz" ⟨"bricks", 100, 5⟩ = (.error (.invalidIdError "zzz"), []) ∧
    edit_order [] "zzz" 0 ⟨"bricks", 100, 5⟩ = (.error (.invalidIdError "zzz"), []) ∧
    delete_order [] "zzz" 0 = (.error (.invalidIdError "zzz"), []) ∧
    update_order_amount [] "zzz" 0 7 9 = (.error (.invalidIdError "zzz"), []) ∧
    (PyError.invalidIdError "zzz").responseStatus = 500 ∧
    isClientError (PyError.invalidIdError "zzz").responseStatus = false :=
  invalid_id_only_get_has_guard [] "zzz" ⟨"bricks", 100, 5⟩ 0 7 9 (by decide)

/-- Claim C1: booking an order on an existing customer succeeds, and the
persisted order sequence is exactly the old one with the supplied order
appended: length grows by one, the element at the old length is the supplied
order, and every prior position holds its old value. -/
theorem book_order_appends (db : Db) (customer_id : String) (c : CustomerDoc) (o : Order)
    (hv : ObjectId.isValid customer_id = true)
    (hf : db.find_one customer_id = some c) :
    (book_order db customer_id o).1 = .ok ⟨"Order booked successfully", o⟩ ∧
    (book_order db customer_id o).2.find_one customer_id =
      some { c with orders := c.orders ++ [o] } ∧
    (c.orders ++ [o]).length = c.orders.length + 1 ∧
    (c.orders ++ [o])[c.orders.length]? = some o ∧
    ∀ k, k < c.orders.length → (c.orders ++ [o])[k]? = c.orders[k]? := by
  refine ⟨?_, ?_, by simp, by simp, fun k hk => ?_⟩
  · simp [book_order, hv, hf]
  · simp [book_order, hv, hf, Db.find_one_update_one_self]
  · rw [List.getElem?_append, if_pos hk]

theorem book_order_appends_witness :
    (book_order [("aaaaaaaaaaaaaaaaaaaaaaaa", ⟨"Alice", "a@x.com", "555", "1 Main St", [⟨"sand", 2, 3⟩]⟩)]
        "aaaaaaaaaaaaaaaaaaaaaaaa" ⟨"bricks", 100, 5⟩).1 =
      .ok ⟨"Order booked successfully", ⟨"bricks", 100, 5⟩⟩ ∧
    (book_order [("aaaaaaaaaaaaaaaaaaaaaaaa", ⟨"Alice", "a@x.com", "555", "1 Main St", [⟨"sand", 2, 3⟩]⟩)]
        "aaaaaaaaaaaaaaaaaaaaaaaa" ⟨"bricks", 100, 5⟩).2.find_one "aaaaaaaaaaaaaaaaaaaaaaaa" =
      some ⟨"Alice", "a@x.com", "555", "1 Main St", [⟨"sand", 2, 3⟩, ⟨"bricks", 100, 5⟩]⟩ := by
  have h := book_order_appends
    [("aaaaaaaaaaaaaaaaaaaaaaaa", ⟨"Alice", "a@x.com", "555", "1 Main St", [⟨"sand", 2, 3⟩]⟩)]
    "aaaaaaaaaaaaaaaaaaaaaaaa" ⟨"Alice", "a@x.com", "555", "1 Main St", [⟨"sand", 2, 3⟩]⟩
    ⟨"bricks", 100, 5⟩ (by decide) (by decide)
  exact ⟨h.1, h.2.1⟩

/-- Claim C3: editing the order at an in-bounds non-negative index `i`
replaces exactly that element with the supplied order: success response, the
persisted sequence is the old one with position `i` set, its length is
unchanged, position `i` holds the replacement, and every other position its
old value. -/
theorem edit_order_replaces (db : Db) (customer_id : String) (c : CustomerDoc)
    (i : Int) (o : Order)
    (hv : ObjectId.isValid customer_id = true)
    (hf : db.find_one customer_id = some c)
    (h0 : 0 ≤ i) (hi : i < (c.orders.length : Int)) :
    (edit_order db customer_id i o).1 = .ok ⟨"Order updated successfully", o⟩ ∧
    (edit_order db customer_id i o).2.find_one customer_id =
      some { c with orders := c.orders.set i.toNat o } ∧
    (c.orders.set i.toNat o).length = c.orders.length ∧
    (c.orders.set i.toNat o)[i.toNat]? = some o ∧
    ∀ k, k ≠ i.toNat → (c.orders.set i.toNat o)[k]? = c.orders[k]? := by
  have hnat : i.toNat < c.orders.length := by omega
  have hpy : pyIndex c.orders.length i = some i.toNat := by
    simp only [pyIndex]
    rw [if_neg (by omega : ¬ i < 0), if_pos ⟨h0, hi⟩]
  refine ⟨?_, ?_, by simp, List.getElem?_set_eq_of_lt o hnat, fun k hk => ?_⟩
  · simp [edit_order, hv, hf, not_le.mpr hi, hpy]
  · simp [edit_order, hv, hf, not_le.mpr hi, hpy, Db.find_one_update_one_self]
  · rw [List.getElem?_set_ne]
    omega

theorem edit_order_replaces_witness :
    (edit_order [("aaaaaaaaaaaaaaaaaaaaaaaa", ⟨"Alice", "a@x.com", "555", "1 Main St", [⟨"sand", 2, 3⟩, ⟨"cement", 4, 6⟩]⟩)]
        "aaaaaaaaaaaaaaaaaaaaaaaa" 0 ⟨"bricks", 100, 5⟩).1 =
      .ok ⟨"Order updated successfully", ⟨"bricks", 100, 5⟩⟩ ∧
    (edit_order [("aaaaaaaaaaaaaaaaaaaaaaaa", ⟨"Alice", "a@x.com", "555", "1 Main St", [⟨"sand", 2, 3⟩, ⟨"cement", 4, 6⟩]⟩)]
        "aaaaaaaaaaaaaaaaaaaaaaaa" 0 ⟨"bricks", 100, 5⟩).2.find_one "aaaaaaaaaaaaaaaaaaaaaaaa" =
      some ⟨"Alice", "a@x.com", "555", "1 Main St", [⟨"bricks", 100, 5⟩, ⟨"cement", 4, 6⟩]⟩ := by
  have h := edit_order_replaces
    [("aaaaaaaaaaaaaaaaaaaaaaaa", ⟨"Alice", "a@x.com", "555", "1 Main St", [⟨"sand", 2, 3⟩, ⟨"cement", 4, 6⟩]⟩)]
    "aaaaaaaaaaaaaaaaaaaaaaaa" ⟨"Alice", "a@x.com", "555", "1 Main St", [⟨"sand", 2, 3⟩, ⟨"cement", 4, 6⟩]⟩
    0 ⟨"bricks", 100, 5⟩ (by decide) (by decide) (by decide) (by decide)
  exact ⟨h.1, h.2.1⟩

/-- Claim C2: deleting the order at an in-bounds non-negative index `i`
removes exactly that element: success response, the persisted sequence is
the old one with position `i` erased, its length is one less, positions
before `i` hold their old values, and every later position holds the value
that was one place to its right. -/
theorem delete_order_removes (db : Db) (customer_id : String) (c : CustomerDoc)
    (i : Int)
    (hv : ObjectId.isValid customer_id = true)
    (hf : db.find_one customer_id = some c)
    (h0 : 0 ≤ i) (hi : i < (c.orders.length : Int)) :
    (delete_order db customer_id i).1 = .ok "Order deleted successfully" ∧
    (delete_order db customer_id i).2.find_one customer_id =
      some { c with orders := c.orders.eraseIdx i.toNat } ∧
    (c.orders.eraseIdx i.toNat).length + 1 = c.orders.length ∧
    (∀ k, k < i.toNat → (c.orders.eraseIdx i.toNat)[k]? = c.orders[k]?) ∧
    (∀ k, i.toNat ≤ k → (c.orders.eraseIdx i.toNat)[k]? = c.orders[k + 1]?) := by
  have hnat : i.toNat < c.orders.length := by omega
  have hpy : pyIndex c.orders.length i = some i.toNat := by
    simp only [pyIndex]
    rw [if_neg (by omega : ¬ i < 0), if_pos ⟨h0, hi⟩]
  refine ⟨?_, ?_, List.length_eraseIdx_add_one hnat,
    fun k hk => List.getElem?_eraseIdx_of_lt' _ _ _ hnat hk,
    fun k hk => List.getElem?_eraseIdx_of_ge' _ _ _ hnat hk⟩
  · simp [delete_order, hv, hf, not_le.mpr hi, hpy]
  · simp [delete_order, hv, hf, not_le.mpr hi, hpy, Db.find_one_update_one_self]

theorem delete_order_removes_witness :
    (delete_order [("aaaaaaaaaaaaaaaaaaaaaaaa", ⟨"Alice", "a@x.com", "555", "1 Main St", [⟨"sand", 2, 3⟩, ⟨"cement", 4, 6⟩]⟩)]
        "aaaaaaaaaaaaaaaaaaaaaaaa" 0).1 = .ok "Order deleted successfully" ∧
    (delete_order [("aaaaaaaaaaaaaaaaaaaaaaaa", ⟨"Alice", "a@x.com", "555", "1 Main St", [⟨"sand", 2, 3⟩, ⟨"cement", 4, 6⟩]⟩)]
        "aaaaaaaaaaaaaaaaaaaaaaaa" 0).2.find_one "aaaaaaaaaaaaaaaaaaaaaaaa" =
      some ⟨"Alice", "a@x.com", "555", "1 Main St", [⟨"cement", 4, 6⟩]⟩ := by
  have h := delete_order_removes
    [("aaaaaaaaaaaaaaaaaaaaaaaa", ⟨"Alice", "a@x.com", "555", "1 Main St", [⟨"sand", 2, 3⟩, ⟨"cement", 4, 6⟩]⟩)]
    "aaaaaaaaaaaaaaaaaaaaaaaa" ⟨"Alice", "a@x.com", "555", "1 Main St", [⟨"sand", 2, 3⟩, ⟨"cement", 4, 6⟩]⟩
    0 (by decide) (by decide) (by decide) (by decide)
  exact ⟨h.1, h.2.1⟩

/-- Claim C4: patching at an in-bounds non-negative index `i` sets exactly
the `quantity` and `price` of the order at `i` to the supplied values: the
response carries the updated order, the persisted sequence is the old one
with position `i` set to the updated order, that order's `category` is the
old one, the length is unchanged, and every other position holds its old
value. -/
theorem update_order_amount_patches (db : Db) (customer_id : String) (c : CustomerDoc)
    (i : Int) (np : Rat) (nq : Int)
    (hv : ObjectId.isValid customer_id = true)
    (hf : db.find_one customer_id = some c)
    (h0 : 0 ≤ i) (hi : i < (c.orders.length : Int)) :
    ∃ old, c.orders[i.toNat]? = some old ∧
      (update_order_amount db customer_id i np nq).1 =
        .ok ⟨"Order updated successfully",
             { category := old.category, quantity := nq, price := np }⟩ ∧
      (update_order_amount db customer_id i np nq).2.find_one customer_id =
        some { c with orders :=
          c.orders.set i.toNat { category := old.category, quantity := nq, price := np } } ∧
      (c.orders.set i.toNat { category := old.category, quantity := nq, price := np }).length =
        c.orders.length ∧
      (c.orders.set i.toNat
          { category := old.category, quantity := nq, price := np })[i.toNat]? =
        some { category := old.category, quantity := nq, price := np } ∧
      ∀ k, k ≠ i.toNat →
        (c.orders.set i.toNat
            { category := old.category, quantity := nq, price := np })[k]? =
          c.orders[k]? := by
  have hnat : i.toNat < c.orders.length := by omega
  have hpy : pyIndex c.orders.length i = some i.toNat := by
    simp only [pyIndex]
    rw [if_neg (by omega : ¬ i < 0), if_pos ⟨h0, hi⟩]
  obtain ⟨old, hold⟩ : ∃ old, c.orders[i.toNat]? = some old :=
    ⟨_, List.getElem?_eq_getElem hnat⟩
  refine ⟨old, hold, ?_, ?_, by simp, List.getElem?_set_eq_of_lt _ hnat, fun k hk => ?_⟩
  · simp [update_order_amount, hv, hf, not_le.mpr hi, hpy, hold]
  · simp [update_order_amount, hv, hf, not_le.mpr hi, hpy, hold,
      Db.find_one_update_one_self]
  · rw [List.getElem?_set_ne]
    omega

theorem update_order_amount_patches_witness :
    ∃ old,
      (CustomerDoc.mk "Alice" "a@x.com" "555" "1 Main St"
          [⟨"sand", 2, 3⟩, ⟨"cement", 4, 6⟩]).orders[(0 : Int).toNat]? = some old ∧
      (update_order_amount
          [("aaaaaaaaaaaaaaaaaaaaaaaa", ⟨"Alice", "a@x.com", "555", "1 Main St", [⟨"sand", 2, 3⟩, ⟨"cement", 4, 6⟩]⟩)]
          "aaaaaaaaaaaaaaaaaaaaaaaa" 0 7 9).1 =
        .ok ⟨"Order updated successfully",
             { category := old.category, quantity := 9, price := 7 }⟩ ∧
      (update_order_amount
          [("aaaaaaaaaaaaaaaaaaaaaaaa", ⟨"Alice", "a@x.com", "555", "1 Main St", [⟨"sand", 2, 3⟩, ⟨"cement", 4, 6⟩]⟩)]
          "aaaaaaaaaaaaaaaaaaaaaaaa" 0 7 9).2.find_one "aaaaaaaaaaaaaaaaaaaaaaaa" =
        some { CustomerDoc.mk "Alice" "a@x.com" "555" "1 Main St"
                  [⟨"sand", 2, 3⟩, ⟨"cement", 4, 6⟩] with
               orders := ([⟨"sand", 2, 3⟩, ⟨"cement", 4, 6⟩] : List Order).set (0 : Int).toNat
                 { category := old.category, quantity := 9, price := 7 } } ∧
      (([⟨"sand", 2, 3⟩, ⟨"cement", 4, 6⟩] : List Order).set (0 : Int).toNat
          { category := old.category, quantity := 9, price := 7 }).length =
        ([⟨"sand", 2, 3⟩, ⟨"cement", 4, 6⟩] : List Order).length ∧
      (([⟨"sand", 2, 3⟩, ⟨"cement", 4, 6⟩] : List Order).set (0 : Int).toNat
          { category := old.category, quantity := 9, price := 7 })[(0 : Int).toNat]? =
        some { category := old.category, quantity := 9, price := 7 } ∧
      ∀ k, k ≠ (0 : Int).toNat →
        (([⟨"sand", 2, 3⟩, ⟨"cement", 4, 6⟩] : List Order).set (0 : Int).toNat
            { category := old.category, quantity := 9, price := 7 })[k]? =
          ([⟨"sand", 2, 3⟩, ⟨"cement", 4, 6⟩] : List Order)[k]? :=
  update_order_amount_patches
    [("aaaaaaaaaaaaaaaaaaaaaaaa", ⟨"Alice", "a@x.com", "555", "1 Main St", [⟨"sand", 2, 3⟩, ⟨"cement", 4, 6⟩]⟩)]
    "aaaaaaaaaaaaaaaaaaaaaaaa" ⟨"Alice", "a@x.com", "555", "1 Main St", [⟨"sand", 2, 3⟩, ⟨"cement", 4, 6⟩]⟩
    0 7 9 (by decide) (by decide) (by decide) (by decide)

/-- Claim C9: creating a customer whose input has `orders` null (`none`) or
the empty list stores and returns a record whose `orders` is the empty
sequence; the stored record is retrievable under the generated key (and by
the type of `CustomerDoc`, every persisted record carries an `orders`
sequence — it can be empty but never absent). -/
theorem add_customer_empty_orders (db : Db) (newId : String) (customer : Customer)
    (h : customer.orders = none ∨ customer.orders = some [])
    (hfresh : db.find_one newId = none) :
    (add_customer db newId customer).2.orders = [] ∧
    (add_customer db newId customer).1.find_one newId =
      some (add_customer db newId customer).2 := by
  constructor
  · rcases h with h | h <;> simp [add_customer, h]
  · exact Db.find_one_insert_one_fresh db newId _ hfresh

theorem add_customer_empty_orders_witness :
    (add_customer [] "aaaaaaaaaaaaaaaaaaaaaaaa" ⟨"Alice", "a@x.com", "555", "1 Main St", none⟩).2.orders = [] ∧
    (add_customer [] "aaaaaaaaaaaaaaaaaaaaaaaa" ⟨"Alice", "a@x.com", "555", "1 Main St", none⟩).1.find_one
        "aaaaaaaaaaaaaaaaaaaaaaaa" =
      some (add_customer [] "aaaaaaaaaaaaaaaaaaaaaaaa" ⟨"Alice", "a@x.com", "555", "1 Main St", none⟩).2 :=
  add_customer_empty_orders [] "aaaaaaaaaaaaaaaaaaaaaaaa"
    ⟨"Alice", "a@x.com", "555", "1 Main St", none⟩ (Or.inl rfl) rfl

/-- Claim C10: for an existing customer with at least one order and a
negative index `i` with `-len ≤ i < 0`, the upper-bound-only check passes
and all three index-taking operations succeed on the element at position
`len + i`: edit replaces it, delete removes it, and patch rewrites its
`quantity` and `price`, each persisting the result and returning a success
response. -/
theorem negative_index_ops (db : Db) (customer_id : String) (c : CustomerDoc)
    (i : Int) (o : Order) (np : Rat) (nq : Int)
    (hv : ObjectId.isValid customer_id = true)
    (hf : db.find_one customer_id = some c)
    (hlen : 1 ≤ c.orders.length)
    (hlb : -(c.orders.length : Int) ≤ i) (hub : i < 0) :
    edit_order db customer_id i o =
      (.ok ⟨"Order updated successfully", o⟩,
       db.update_one customer_id (c.orders.set (i + c.orders.length).toNat o)) ∧
    delete_order db customer_id i =
      (.ok "Order deleted successfully",
       db.update_one customer_id (c.orders.eraseIdx (i + c.orders.length).toNat)) ∧
    ∃ old, c.orders[(i + c.orders.length).toNat]? = some old ∧
      update_order_amount db customer_id i np nq =
        (.ok ⟨"Order updated successfully",
              { category := old.category, quantity := nq, price := np }⟩,
         db.update_one customer_id
           (c.orders.set (i + c.orders.length).toNat
             { category := old.category, quantity := nq, price := np })) := by
  have hnat : (i + (c.orders.length : Int)).toNat < c.orders.length := by omega
  have hpy : pyIndex c.orders.length i = some (i + (c.orders.length : Int)).toNat := by
    simp only [pyIndex]
    rw [if_pos hub, if_pos ⟨by omega, by omega⟩]
  have hle : ¬ ((c.orders.length : Int) ≤ i) := by omega
  obtain ⟨old, hold⟩ : ∃ old, c.orders[(i + (c.orders.length : Int)).toNat]? = some old :=
    ⟨_, List.getElem?_eq_getElem hnat⟩
  refine ⟨?_, ?_, old, hold, ?_⟩
  · simp [edit_order, hv, hf, hle, hpy]
  · simp [delete_order, hv, hf, hle, hpy]
  · simp [update_order_amount, hv, hf, hle, hpy, hold]

theorem negative_index_ops_witness :
    edit_order [("aaaaaaaaaaaaaaaaaaaaaaaa", ⟨"Alice", "a@x.com", "555", "1 Main St", [⟨"sand", 2, 3⟩, ⟨"cement", 4, 6⟩]⟩)]
        "aaaaaaaaaaaaaaaaaaaaaaaa" (-1) ⟨"bricks", 100, 5⟩ =
      (.ok ⟨"Order updated successfully", ⟨"bricks", 100, 5⟩⟩,
       [("aaaaaaaaaaaaaaaaaaaaaaaa", ⟨"Alice", "a@x.com", "555", "1 Main St", [⟨"sand", 2, 3⟩, ⟨"bricks", 100, 5⟩]⟩)]) ∧
    delete_order [("aaaaaaaaaaaaaaaaaaaaaaaa", ⟨"Alice", "a@x.com", "555", "1 Main St", [⟨"sand", 2, 3⟩, ⟨"cement", 4, 6⟩]⟩)]
        "aaaaaaaaaaaaaaaaaaaaaaaa" (-1) =
      (.ok "Order deleted successfully",
       [("aaaaaaaaaaaaaaaaaaaaaaaa", ⟨"Alice", "a@x.com", "555", "1 Main St", [⟨"sand", 2, 3⟩]⟩)]) := by
  have h := negative_index_ops
    [("aaaaaaaaaaaaaaaaaaaaaaaa", ⟨"Alice", "a@x.com", "555", "1 Main St", [⟨"sand", 2, 3⟩, ⟨"cement", 4, 6⟩]⟩)]
    "aaaaaaaaaaaaaaaaaaaaaaaa" ⟨"Alice", "a@x.com", "555", "1 Main St", [⟨"sand", 2, 3⟩, ⟨"cement", 4, 6⟩]⟩
    (-1) ⟨"bricks", 100, 5⟩ 7 9 (by decide) (by decide) (by decide) (by decide) (by decide)
  exact ⟨h.1, h.2.1⟩
